import Mathlib

/-!
Verification of the Play.Common shared runtime library.

This file gives a shallow embedding, in Lean 4, of the parts of the
Play.Common Go repository that the frozen claims are about:

* the pagination/filter calculator (package `filters`),
* the validator helpers it relies on (package `validator`),
* the generic Mongo repository's conditional `Update` and the sort
  options built by `GetAll` (packages `database` and `mongo`),
* the `Authenticate` / `RequirePermission` middlewares and the
  permission set (packages `common` and `permissions`),
* the `Background` goroutine spawner and the `Serve` graceful-shutdown
  sequence (package `common`).

Go machine integers (`int`, `int64`, `int32`) are embedded as `Int`;
none of the verified claims involves wrap-around (validated page
numbers are at most ten million, page sizes at most one hundred, and
document versions are small counters), so no modular reduction is
inserted.  Go `panic` is embedded as the `Except.error` branch of an
`Except` result.  Fallible calls (the Mongo driver, the repository
boundary, JWT verification) are embedded as explicit `Except`/`Option`
results.  Goroutines, `defer`/`recover` and unbuffered channels are
embedded as explicit event traces, with a rendezvous send marking the
happens-before edge to the receiving side.
-/

deriving instance DecidableEq for Except

namespace PlayCommon

/-! ## Go standard-library string helpers

The middleware and filter code uses `strings.Split`,
`strings.TrimPrefix`/`strings.HasPrefix` and `strconv.ParseInt`.  They
are embedded structurally over `List Char` so that every use is
computable by the kernel. -/

/-- Go `strings.Split(s, sep)` for a one-character separator, on the
character list.  Go returns `[""]` for the empty string, which is the
base case here. -/
def splitChars (sep : Char) : List Char → List (List Char)
  | [] => [[]]
  | c :: rest =>
    let r := splitChars sep rest
    if c = sep then
      [] :: r
    else
      match r with
      | [] => [[c]]
      | w :: ws => (c :: w) :: ws

/-- Go `strings.Split(s, string(sep))` for a one-character separator. -/
def goSplit (s : String) (sep : Char) : List String :=
  (splitChars sep s.data).map (fun l => String.mk l)

/-- Character-list version of Go `strings.HasPrefix`. -/
def hasPre : List Char → List Char → Bool
  | [], _ => true
  | _ :: _, [] => false
  | p :: ps, c :: cs => p = c && hasPre ps cs

/-- Go `strings.HasPrefix(s, pre)`. -/
def goHasPre (s pre : String) : Bool :=
  hasPre pre.data s.data

/-- Go `strings.TrimPrefix(s, pre)`: drops `pre` from the front of `s`
when it is a prefix and returns `s` unchanged otherwise. -/
def goTrimPre (s pre : String) : String :=
  if goHasPre s pre then String.mk (s.data.drop pre.data.length) else s

/-- Decimal digit list to a number: `none` when the list is empty or
contains a non-digit character. -/
def parseDigits : List Char → Option Nat
  | [] => none
  | [c] => if c.isDigit then some (c.toNat - '0'.toNat) else none
  | c :: rest =>
    if c.isDigit then
      match parseDigits rest with
      | none => none
      | some n => some ((c.toNat - '0'.toNat) * 10 ^ rest.length + n)
    else
      none

/-- Go `strconv.ParseInt(s, 10, 64)`: an optional sign followed by at
least one decimal digit, with the value required to fit in a signed
64-bit integer; every other input is an error (`none`). -/
def parseInt64 (s : String) : Option Int :=
  match s.data with
  | [] => none
  | c :: rest =>
    let signedDigits : Bool × List Char :=
      if c = '-' then (true, rest)
      else if c = '+' then (false, rest)
      else (false, c :: rest)
    match parseDigits signedDigits.2 with
    | none => none
    | some n =>
      let v : Int := if signedDigits.1 then -(n : Int) else (n : Int)
      if -(2 ^ 63) ≤ v ∧ v ≤ 2 ^ 63 - 1 then some v else none

/-! ## Package `validator`

Embedding of `validator/helpers.go` (`Between`, `In`) and
`validator/validator.go` (the error map, `Check`, `AddError`,
`HasErrors`).  The Go error container is a map from field key to
message in which `AddError` keeps the first message per key; it is
embedded as an association list with the same first-write-wins rule. -/

/-- Go `validator.Between(value, min, max)` at type `int`. -/
def Between (value min max : Int) : Bool :=
  min ≤ value && value ≤ max

/-- Go `validator.In(value, safelist...)` at type `string`: linear scan
for an equal element. -/
def In (value : String) : List String → Bool
  | [] => false
  | x :: rest => if value = x then true else In value rest

/-- Go `validator.Validator`: a container of field-keyed validation
error messages. -/
structure Validator where
  errors : List (String × String)
  deriving Repr, DecidableEq

/-- Go `validator.New()`. -/
def Validator.new : Validator := ⟨[]⟩

/-- Go `Validator.AddError(key, message)`: adds the message so long as
no entry already exists for the key. -/
def Validator.addError (v : Validator) (key message : String) : Validator :=
  if v.errors.any (fun p => p.1 = key) then v
  else ⟨v.errors ++ [(key, message)]⟩

/-- Go `Validator.Check(ok, key, message)`: records the error message
when the checked condition is false. -/
def Validator.check (v : Validator) (ok : Bool) (key message : String) : Validator :=
  if ok then v else v.addError key message

/-- Go `Validator.HasErrors()`. -/
def Validator.hasErrors (v : Validator) : Bool :=
  v.errors.length ≠ 0

/-! ## Package `filters`

Embedding of `filters` (source file `part_018`): the `Filters` struct,
`ValidateFilters`, `SortColumn` (whose `panic` branch is the
`Except.error` result), `SortDirection`, `Limit` and `Offset`. -/

/-- Go `filters.Filters`: client-supplied paging and sorting
parameters plus the per-resource sort safelist. -/
structure Filters where
  Page : Int
  PageSize : Int
  SortField : String        -- the Go field `Sort` (`Sort` is a Lean keyword)
  SortSafelist : List String
  deriving Repr, DecidableEq

/-- Go `filters.ValidateFilters(v, f)`: checks the page range, the
page-size range and membership of the sort value in the safelist,
recording one keyed error message per failed check. -/
def ValidateFilters (v : Validator) (f : Filters) : Validator :=
  let v1 := v.check (Between f.Page 0 10000000) "page"
    "must be greater or equal to 0 and lower or equal to 10 million"
  let v2 := v1.check (Between f.PageSize 0 100) "page_size"
    "must be greater or equal to 0 and lower or equal to 100"
  v2.check (In f.SortField f.SortSafelist) "sort" "invalid sort value"

/-- The loop inside Go `Filters.SortColumn()`: return the sort value
with a leading hyphen stripped at the first safelist match; falling off
the loop reaches the `panic` statement, embedded as the error branch. -/
def sortColumnLoop (sort : String) : List String → Except String String
  | [] => .error ("unsafe sort parameter: " ++ sort)
  | safeValue :: rest =>
    if sort = safeValue then .ok (goTrimPre sort "-")
    else sortColumnLoop sort rest

/-- Go `Filters.SortColumn()`.  The `Except.error` branch is the Go
`panic("unsafe sort parameter: " + f.SortField)`. -/
def Filters.SortColumn (f : Filters) : Except String String :=
  sortColumnLoop f.SortField f.SortSafelist

/-- Go `Filters.SortDirection()`: `-1` when the sort value begins with
the descending marker `-`, else `1`. -/
def Filters.SortDirection (f : Filters) : Int :=
  if goHasPre f.SortField "-" then -1 else 1

/-- Modelled from the spec: `database/mongo_repository.go` calls
`findOpts.SortDirectionMongo()`, whose definition is not among the
provided source files.  Per the spec, the sort direction is descending
exactly when the sort value begins with the marker character, which for
Mongo is the integer `-1`, and ascending (`1`) otherwise. -/
def Filters.SortDirectionMongo (f : Filters) : Int :=
  if goHasPre f.SortField "-" then -1 else 1

/-- Go `Filters.Limit()`. -/
def Filters.Limit (f : Filters) : Int :=
  f.PageSize

/-- Go `Filters.Offset()`. -/
def Filters.Offset (f : Filters) : Int :=
  (f.Page - 1) * f.PageSize

/-! ## Package `permissions` -/

/-- Go `Permissions.Include(code)`: linear scan of the permission-code
slice for the required code. -/
def Include (code : String) : List String → Bool
  | [] => false
  | x :: rest => if code = x then true else Include code rest

/-! ## Generic Mongo repository

Embedding of the two `Update` implementations the claims cite —
`database/mongo_repository.go` (which stores `version + 1` and reports
`ErrEditConflict` on zero matches) and the earlier variant in
`mongo/mongo_repository.go` lines 127-142 (which stores the entity
unchanged via `$set: entity` and reports `ErrRecordNotFound`) — and the
`Find` sort options built by the two `GetAll` implementations.

A stored collection is a list of documents.  A document is a record
with a key (`_id`), a `version` field and an opaque payload standing
for every other field; an entity handed to `Update` has the same shape
(`GetID`, `GetVersion`, `SetVersion` read and write the first two
fields).  Mongo's `UpdateOne` matches at most one document against the
filter and `$set` with a full entity document rewrites every field of
the matched document, so it is embedded as first-match replacement
returning the matched count. -/

/-- Repository errors of `database/mongo_repository.go` and
`mongo/mongo_repository.go` (`ErrRecordNotFound`, `ErrEditConflict`),
plus a constructor for any other driver error. -/
inductive RepoError where
  | recordNotFound
  | editConflict
  | other (msg : String)
  deriving Repr, DecidableEq

/-- A document (equally, an entity) of a repository collection: key,
version counter, and an opaque payload for the remaining fields.
`GetKey`/`GetVersion` are the projections; `SetVersion` is
`fun n => { e with version := n }`. -/
structure Entity (K : Type) where
  id : K
  version : Int
  payload : String
  deriving Repr, DecidableEq

/-- Go `User.SetVersion(version)`: returns a copy of the entity with
the version field replaced. -/
def Entity.SetVersion {K : Type} (e : Entity K) (v : Int) : Entity K :=
  { e with version := v }

/-- Mongo driver `collection.UpdateOne(ctx, {_id: fid, version: fv},
{$set: new})`: replaces the first document matching both filter fields
with `new` and returns the new collection together with
`MatchedCount` (`0` or `1`). -/
def updateOne {K : Type} [DecidableEq K] (fid : K) (fv : Int) (new : Entity K) :
    List (Entity K) → List (Entity K) × Nat
  | [] => ([], 0)
  | d :: rest =>
    if d.id = fid ∧ d.version = fv then
      (new :: rest, 1)
    else
      let r := updateOne fid fv new rest
      (d :: r.1, r.2)

/-- Go `MongoRepository.Update` of `database/mongo_repository.go`:
conditional write matching `_id` and the entity's current version,
setting the stored version to `version + 1`; `MatchedCount == 0` is
reported as `ErrEditConflict`. -/
def databaseUpdate {K : Type} [DecidableEq K] (store : List (Entity K)) (e : Entity K) :
    List (Entity K) × Except RepoError Unit :=
  let r := updateOne e.id e.version (e.SetVersion (e.version + 1)) store
  if r.2 = 0 then (r.1, .error .editConflict) else (r.1, .ok ())

/-- Go `MongoRepository.Update` of `mongo/mongo_repository.go` lines
127-142 (the earlier variant): conditional write matching `_id` and
`version`, but the update document is `$set: entity` — the entity is
stored unchanged, version included — and `MatchedCount == 0` is
reported as `ErrRecordNotFound`. -/
def mongoEarlyUpdate {K : Type} [DecidableEq K] (store : List (Entity K)) (e : Entity K) :
    List (Entity K) × Except RepoError Unit :=
  let r := updateOne e.id e.version e store
  if r.2 = 0 then (r.1, .error .recordNotFound) else (r.1, .ok ())

/-- Mongo driver `options.FindOptions`: only the fields `GetAll`
sets.  A sort specification is an ordered list of (field, direction)
pairs: a `bson.D` is such a list; a one-key `bson.M` is a singleton. -/
structure FindOptions where
  skip : Option Int
  limit : Option Int
  sort : Option (List (String × Int))
  deriving Repr, DecidableEq

/-- Mongo driver `options.Find()`: all fields unset. -/
def FindOptions.find : FindOptions := ⟨none, none, none⟩

/-- Mongo driver `FindOptions.SetSkip`. -/
def FindOptions.SetSkip (o : FindOptions) (n : Int) : FindOptions :=
  { o with skip := some n }

/-- Mongo driver `FindOptions.SetLimit`. -/
def FindOptions.SetLimit (o : FindOptions) (n : Int) : FindOptions :=
  { o with limit := some n }

/-- Mongo driver `FindOptions.SetSort`: sets the sort document,
replacing any previously set one. -/
def FindOptions.SetSort (o : FindOptions) (s : List (String × Int)) : FindOptions :=
  { o with sort := some s }

/-- The find options built by `MongoRepository.GetAll` of
`database/mongo_repository.go` lines 100-108: skip, limit, and one
`SetSort` call whose `bson.D` lists the requested sort column first and
`_id` ascending second.  The `Except.error` branch propagates the
`SortColumn` panic. -/
def databaseGetAllFindOptions (f : Filters) : Except String FindOptions :=
  match f.SortColumn with
  | .error e => .error e
  | .ok col =>
    let o := FindOptions.find
    let o := o.SetSkip f.Offset
    let o := o.SetLimit f.Limit
    let o := o.SetSort [(col, f.SortDirectionMongo), ("_id", 1)]
    .ok o

/-- The find options built by `MongoRepository.GetAll` of
`mongo/mongo_repository.go` lines 238-242: skip, limit, then two
successive `SetSort` calls — one with the requested sort column, one
with `_id` ascending. -/
def mongoGetAllFindOptions (f : Filters) : Except String FindOptions :=
  match f.SortColumn with
  | .error e => .error e
  | .ok col =>
    let o := FindOptions.find
    let o := o.SetSkip f.Offset
    let o := o.SetLimit f.Limit
    let o := o.SetSort [(col, f.SortDirection)]
    let o := o.SetSort [("_id", 1)]
    .ok o

/-! ## Authentication and authorization middlewares

Embedding of `App.Authenticate` and `App.RequirePermission` from
`part_000` (package `common`).  HTTP plumbing is reduced to what the
claims observe: the response headers the stage writes, in order, and
which terminal response — or hand-off to the next handler — it
produces.  The JWT library calls are abstracted as data on the token:
`rsaCheck` (the outcome of `jwt.RSACheck` against the preloaded public
key) is a parameter, and the parsed claims carry the outcomes of
`claims.Valid(time.Now())` and `claims.AcceptAudience(...)` together
with the `Issuer` and `Subject` strings the code inspects. -/

/-- Go `database.User`: the caller identity resolved by the auth
repository. -/
structure User where
  ID : Int
  Permissions : List String
  Activated : Bool
  Version : Int
  deriving Repr, DecidableEq

/-- Claim set returned by `jwt.RSACheck` when signature verification
succeeds: `valid` is the outcome of `claims.Valid(time.Now())`,
`audienceOk` the outcome of `claims.AcceptAudience` on the service's
identifier, and `issuer`/`subject` are the string claims the
middleware reads. -/
structure JwtClaims where
  valid : Bool
  issuer : String
  audienceOk : Bool
  subject : String
  deriving Repr, DecidableEq

/-- Terminal outcome of a middleware stage for one request:
`invalidToken` is `InvalidAuthenticationTokenResponse` (401),
`serverError` is `ServerErrorResponse` (500), `forbidden` is
`NotPermittedResponse` (403), and `nextHandler u` means the stage
called `next.ServeHTTP` with user `u` attached to the request
context. -/
inductive MwOutcome where
  | invalidToken
  | serverError
  | forbidden
  | nextHandler (u : User)
  deriving Repr, DecidableEq

/-- Response headers written by
`App.InvalidAuthenticationTokenResponse` (`part_001` lines 82-88)
before the 401 body: the challenge marker naming the Bearer scheme. -/
def invalidAuthenticationTokenHeaders : List (String × String) :=
  [("WWW-Authenticate", "Bearer")]

/-- Go `App.Authenticate` handler body (`part_000` lines 127-210):
adds `Vary: Authorization`, requires a `Bearer <token>` header, runs
the signature / validity-window / issuer / audience checks, parses the
subject into an `int64`, resolves the caller via the repository's
`GetByID`, and either fails with a terminal response or hands the
resolved user to the next handler.  Returns the headers the stage
wrote, in order, alongside the outcome. -/
def Authenticate (rsaCheck : String → Option JwtClaims) (authority : String)
    (repoGetByID : Int → Except RepoError User) (authorizationHeader : String) :
    List (String × String) × MwOutcome :=
  let hdr := [("Vary", "Authorization")]
  if authorizationHeader = "" then
    (hdr ++ invalidAuthenticationTokenHeaders, .invalidToken)
  else
    let headerParts := goSplit authorizationHeader ' '
    if ¬(headerParts.length = 2 ∧ headerParts.headD "" = "Bearer") then
      (hdr ++ invalidAuthenticationTokenHeaders, .invalidToken)
    else
      let token := headerParts.getD 1 ""
      match rsaCheck token with
      | none => (hdr ++ invalidAuthenticationTokenHeaders, .invalidToken)
      | some claims =>
        if ¬claims.valid then
          (hdr ++ invalidAuthenticationTokenHeaders, .invalidToken)
        else if claims.issuer ≠ authority then
          (hdr ++ invalidAuthenticationTokenHeaders, .invalidToken)
        else if ¬claims.audienceOk then
          (hdr ++ invalidAuthenticationTokenHeaders, .invalidToken)
        else
          match parseInt64 claims.subject with
          | none => (hdr, .serverError)
          | some userID =>
            match repoGetByID userID with
            | .error .recordNotFound =>
              (hdr ++ invalidAuthenticationTokenHeaders, .invalidToken)
            | .error _ => (hdr, .serverError)
            | .ok user => (hdr, .nextHandler user)

/-- Go `App.RequirePermission` handler body (`part_000` lines
214-237): re-fetches the context user's identity by its key via
`GetByID`; any repository error yields `ServerErrorResponse`; a
missing required permission code yields `NotPermittedResponse`;
otherwise the next handler runs. -/
def RequirePermission (repoGetByID : Int → Except RepoError User)
    (code : String) (ctxUser : User) : MwOutcome :=
  match repoGetByID ctxUser.ID with
  | .error _ => .serverError
  | .ok user =>
    if ¬Include code user.Permissions then .forbidden
    else .nextHandler user

/-! ## Background task spawner

Embedding of `App.Background` (`part_000` lines 610-629).  The caller
increments the WaitGroup counter and launches a goroutine whose body
runs `fn(ctx)` under two deferred actions, executed in last-in
first-out order when the body finishes or panics:

* `defer func() { if err := recover(); ... Logger.Error ... }()` —
  registered second, so it runs first — recovers any active panic and
  logs it;
* `defer app.WaitGroup.Done()` — registered first, so it runs last.

A run of `fn` is represented by its panic outcome (`none` for normal
return, `some msg` for a panic), and Go's defer/recover machinery by a
generic runner over deferred actions that thread the propagating-panic
state and emit trace events. -/

/-- Observable events of a `Background` call: the WaitGroup increment
and decrement, the execution of the handed-in function, and the
logging of a recovered panic. -/
inductive BgEvent where
  | wgAdd
  | runFn
  | logPanic
  | wgDone
  deriving Repr, DecidableEq, BEq

/-- A deferred Go action: given the currently propagating panic (if
any), it yields the panic state after it runs and the events it
emits. -/
def DeferAction : Type := Option String → Option String × List BgEvent

/-- The deferred recover-and-log closure of `Background`: `recover()`
returns the active panic value, which is logged via `Logger.Error`;
afterwards no panic propagates.  With no active panic, `recover()`
returns nil and nothing happens. -/
def recoverAndLog : DeferAction := fun p =>
  match p with
  | some _ => (none, [.logPanic])
  | none => (none, [])

/-- The deferred `app.WaitGroup.Done()` of `Background`: decrements
the counter; it neither inspects nor clears a propagating panic. -/
def wgDoneAction : DeferAction := fun p => (p, [.wgDone])

/-- Runs a list of deferred actions in order, threading the
propagating-panic state and concatenating the emitted events. -/
def runDefers : List DeferAction → Option String → Option String × List BgEvent
  | [], p => (p, [])
  | d :: rest, p =>
    let r := d p
    let r2 := runDefers rest r.1
    (r2.1, r.2 ++ r2.2)

/-- The goroutine body of `Background`: `fn(ctx)` runs (emitting
`runFn`, with `fnPanic` its panic outcome), then the deferred actions
run in LIFO order — `recoverAndLog` first, `wgDoneAction` last.  The
result is the panic still propagating out of the goroutine, if any,
paired with the goroutine's event trace. -/
def backgroundGoroutine (fnPanic : Option String) : Option String × List BgEvent :=
  let r := runDefers [recoverAndLog, wgDoneAction] fnPanic
  (r.1, BgEvent.runFn :: r.2)

/-- Go `App.Background(ctx, fn)` as observed by its caller: it
increments the WaitGroup counter (`wgAdd`) and launches the goroutine;
the `go` statement does not block, so the caller's own trace ends
there and the goroutine's run is returned separately. -/
def Background (fnPanic : Option String) :
    List BgEvent × (Option String × List BgEvent) :=
  ([.wgAdd], backgroundGoroutine fnPanic)

/-! ## Graceful shutdown

Embedding of the shutdown path of `App.Serve`, in both provided
variants (`part_004` lines 43-112 and `part_005` lines 14-96).  After
the termination signal, the signal-handling goroutine runs a straight
line of effects; `Serve`'s main flow, once `ListenAndServe` returns
`http.ErrServerClosed`, blocks on one receive from the unbuffered
`shutdownError` channel and returns the received value (the error when
non-nil).

An unbuffered channel send is a rendezvous: exactly the goroutine
events that precede the first executed send are guaranteed to have
happened before `Serve`'s receive — and hence before `Serve` returns.
`shutdownResult` is the outcome of `server.Shutdown(ctx)` under the
5-second grace period: `none` when the graceful shutdown finished in
time, `some msg` when the deadline was hit or closing listeners
failed. -/

/-- Events of the signal-handling goroutine in `Serve`: a send on the
`shutdownError` channel carrying a value (`none` encodes Go `nil`),
and the `WaitGroup.Wait()` on the background-task tracker. -/
inductive ServeEvent where
  | send (v : Option String)
  | waitTracker
  deriving Repr, DecidableEq

/-- The signal-handling goroutine of `part_004`'s `Serve` after the
signal arrives: relay a non-nil `server.Shutdown` error to the
channel, then wait on the WaitGroup, then send nil. -/
def serveGoroutine004 (shutdownResult : Option String) : List ServeEvent :=
  (match shutdownResult with
    | some e => [.send (some e)]
    | none => []) ++
  [.waitTracker, .send none]

/-- The signal-handling goroutine of `part_005`'s `Serve` after the
signal arrives: relay a non-nil `server.Shutdown` error to the
channel, then send nil; there is no WaitGroup wait. -/
def serveGoroutine005 (shutdownResult : Option String) : List ServeEvent :=
  (match shutdownResult with
    | some e => [.send (some e)]
    | none => []) ++
  [.send none]

/-- First executed send in a goroutine trace: the value it carries and
the events that precede it. -/
def firstSend : List ServeEvent → Option (Option String × List ServeEvent)
  | [] => none
  | .send v :: _ => some (v, [])
  | e :: rest =>
    match firstSend rest with
    | none => none
    | some r => some (r.1, e :: r.2)

/-- What `Serve`'s main flow observes at `err = <-shutdownError`:
the received value — `Serve` returns it as its error when it is
non-nil — and the goroutine events guaranteed by the rendezvous to
have happened before `Serve` returns.  (Every goroutine trace above
contains a send, so the fallback branch is never hit.) -/
def serveReturn (goroutine : List ServeEvent) : Option String × List ServeEvent :=
  match firstSend goroutine with
  | some r => r
  | none => (none, goroutine)

/-! ## Helper lemmas -/

/-- A `Filters` value passes `ValidateFilters` starting from a fresh
validator exactly when the page is between 0 and 10,000,000, the page
size between 0 and 100, and the sort value is in the safelist. -/
theorem validateFilters_accepted_iff (f : Filters) :
    (ValidateFilters Validator.new f).hasErrors = false ↔
      (Between f.Page 0 10000000 = true ∧ Between f.PageSize 0 100 = true ∧
        In f.SortField f.SortSafelist = true) := by
  cases h1 : Between f.Page 0 10000000 <;>
    cases h2 : Between f.PageSize 0 100 <;>
      cases h3 : In f.SortField f.SortSafelist <;>
        simp [ValidateFilters, Validator.check, Validator.addError, Validator.new,
          Validator.hasErrors, h1, h2, h3]

/-- The `SortColumn` loop returns the hyphen-stripped sort value when
the sort value is in the safelist and reaches the panic otherwise. -/
theorem sortColumnLoop_eq (sort : String) (l : List String) :
    sortColumnLoop sort l =
      if In sort l then .ok (goTrimPre sort "-")
      else .error ("unsafe sort parameter: " ++ sort) := by
  induction l with
  | nil => simp [sortColumnLoop, In]
  | cons x rest ih =>
    by_cases h : sort = x <;> simp [sortColumnLoop, In, h, ih]

/-! ## Claims -/

/-- C6, counterexample: the filter with page 0, page size 1 and sort
value `"name"` against the safelist `["name"]` is accepted by
`ValidateFilters` — validation admits page 0 — yet its `Offset()` is
`(0 - 1) * 1 = -1`, which is negative.  The claim that `Offset()` is
non-negative for every validation-accepted filter is therefore
false. -/
theorem C6_counterexample :
    (ValidateFilters Validator.new ⟨0, 1, "name", ["name"]⟩).hasErrors = false ∧
    Filters.Offset ⟨0, 1, "name", ["name"]⟩ = -1 ∧
    ¬(0 ≤ Filters.Offset ⟨0, 1, "name", ["name"]⟩) := by
  decide

/-- C6, amended: for every Filters value accepted by validation (page
between 0 and 10,000,000, page size between 0 and 100, sort in the
safelist), `Limit() = pageSize` is non-negative and
`Offset() = (page - 1) * pageSize`; `Offset()` is non-negative
whenever the page is additionally at least 1 (validation also accepts
page 0, for which the offset is `-pageSize`). -/
theorem C6_offset_limit (f : Filters)
    (h : (ValidateFilters Validator.new f).hasErrors = false) :
    0 ≤ f.Limit ∧ f.Limit = f.PageSize ∧
    f.Offset = (f.Page - 1) * f.PageSize ∧
    (1 ≤ f.Page → 0 ≤ f.Offset) := by
  obtain ⟨-, h2, -⟩ := (validateFilters_accepted_iff f).mp h
  simp only [Between, Bool.and_eq_true, decide_eq_true_eq] at h2
  have hps : 0 ≤ f.PageSize := h2.1
  refine ⟨hps, rfl, rfl, fun hp => ?_⟩
  have h1 : 0 ≤ f.Page - 1 := by omega
  exact mul_nonneg h1 hps

/-- C6, witness: the amended theorem applied to the concrete accepted
filter with page 2, page size 20 and sort value `"name"`. -/
theorem C6_witness :
    0 ≤ Filters.Limit ⟨2, 20, "name", ["name"]⟩ ∧
    Filters.Limit ⟨2, 20, "name", ["name"]⟩ = 20 ∧
    Filters.Offset ⟨2, 20, "name", ["name"]⟩ = (2 - 1) * 20 ∧
    (1 ≤ (2 : Int) → 0 ≤ Filters.Offset ⟨2, 20, "name", ["name"]⟩) :=
  C6_offset_limit ⟨2, 20, "name", ["name"]⟩ (by decide)

/-- C7: for every sort string and safelist, `SortColumn` returns the
sort string with a leading hyphen stripped when the sort string
appears verbatim in the safelist, and otherwise reaches the panic
(the error branch) without returning any column name; in particular,
under the precondition that the sort string is in the safelist, the
panic branch is unreachable. -/
theorem C7_sortColumn (f : Filters) :
    (In f.SortField f.SortSafelist = true →
      f.SortColumn = .ok (goTrimPre f.SortField "-")) ∧
    (In f.SortField f.SortSafelist = false →
      f.SortColumn = .error ("unsafe sort parameter: " ++ f.SortField)) := by
  constructor <;> intro h <;> simp [Filters.SortColumn, sortColumnLoop_eq, h]

/-- C7, witness: the safelisted descending sort value `"-name"` maps
to the column `"name"`, and the non-safelisted value `"price"` reaches
the panic branch. -/
theorem C7_witness :
    Filters.SortColumn ⟨1, 20, "-name", ["name", "-name"]⟩ = .ok "name" ∧
    Filters.SortColumn ⟨1, 20, "price", ["name", "-name"]⟩ =
      .error ("unsafe sort parameter: " ++ "price") := by
  constructor
  · have h := (C7_sortColumn ⟨1, 20, "-name", ["name", "-name"]⟩).1 (by decide)
    rw [h]
    decide
  · exact (C7_sortColumn ⟨1, 20, "price", ["name", "-name"]⟩).2 (by decide)

/-- Helper: when no stored document matches both filter fields,
`UpdateOne` leaves the collection unchanged and reports a matched
count of zero. -/
theorem updateOne_no_match {K : Type} [DecidableEq K] (fid : K) (fv : Int)
    (new : Entity K) (store : List (Entity K))
    (h : ∀ d ∈ store, ¬(d.id = fid ∧ d.version = fv)) :
    updateOne fid fv new store = (store, 0) := by
  induction store with
  | nil => rfl
  | cons d rest ih =>
    have hd := h d (by simp)
    have hrest : ∀ x ∈ rest, ¬(x.id = fid ∧ x.version = fv) :=
      fun x hx => h x (by simp [hx])
    simp [updateOne, hd, ih hrest]

/-- Helper: when some stored document matches both filter fields,
`UpdateOne` reports a matched count of one and the replacement
document is in the resulting collection. -/
theorem updateOne_match {K : Type} [DecidableEq K] (fid : K) (fv : Int)
    (new : Entity K) (store : List (Entity K))
    (h : ∃ d ∈ store, d.id = fid ∧ d.version = fv) :
    (updateOne fid fv new store).2 = 1 ∧ new ∈ (updateOne fid fv new store).1 := by
  induction store with
  | nil => simp at h
  | cons d rest ih =>
    by_cases hd : d.id = fid ∧ d.version = fv
    · simp [updateOne, hd]
    · have hrest : ∃ x ∈ rest, x.id = fid ∧ x.version = fv := by
        rcases h with ⟨x, hx, hprop⟩
        rcases List.mem_cons.mp hx with heq | hmem
        · exact absurd (heq ▸ hprop) hd
        · exact ⟨x, hmem, hprop⟩
      obtain ⟨hcount, hmem⟩ := ih hrest
      simp [updateOne, hd, hcount, hmem]

/-- C1, counterexample: the claim is false of the `Update` of
`mongo/mongo_repository.go` lines 127-142, one of its two cited
implementations.  On an empty collection (zero documents match) that
`Update` fails with `ErrRecordNotFound`, which is a different error
value than `ErrEditConflict`; and a matching update stores the entity
unchanged — submitted version 3 stays 3 in the stored document instead
of becoming 4. -/
theorem C1_counterexample :
    (mongoEarlyUpdate ([] : List (Entity Int)) ⟨1, 3, "p"⟩).2 =
      .error .recordNotFound ∧
    (Except.error RepoError.recordNotFound
      ≠ (Except.error RepoError.editConflict : Except RepoError Unit)) ∧
    mongoEarlyUpdate [(⟨1, 3, "old"⟩ : Entity Int)] ⟨1, 3, "new"⟩ =
      ([⟨1, 3, "new"⟩], .ok ()) ∧
    Entity.version (⟨1, 3, "new"⟩ : Entity Int) = 3 := by
  decide

/-- C1, amended: for every entity passed to `Update` of
`database/mongo_repository.go`, the write is conditional on both the
key and the entity's current in-memory version, the stored version is
set to `version + 1` on success, and if zero documents match the
update fails with `EditConflict` and changes nothing; the earlier
variant in `mongo/mongo_repository.go` lines 127-142 performs the same
conditional match but stores the entity unchanged (the stored version
stays equal to the submitted version) and reports a zero-document
match as `NotFound` instead of `EditConflict`, likewise changing
nothing. -/
theorem C1_update_contract {K : Type} [DecidableEq K]
    (store : List (Entity K)) (e : Entity K) :
    ((∀ d ∈ store, ¬(d.id = e.id ∧ d.version = e.version)) →
      databaseUpdate store e = (store, .error .editConflict) ∧
      mongoEarlyUpdate store e = (store, .error .recordNotFound)) ∧
    ((∃ d ∈ store, d.id = e.id ∧ d.version = e.version) →
      (databaseUpdate store e).2 = .ok () ∧
      e.SetVersion (e.version + 1) ∈ (databaseUpdate store e).1 ∧
      (mongoEarlyUpdate store e).2 = .ok () ∧
      e ∈ (mongoEarlyUpdate store e).1) := by
  constructor
  · intro h
    simp [databaseUpdate, mongoEarlyUpdate, updateOne_no_match e.id e.version _ store h]
  · intro h
    obtain ⟨hc1, hm1⟩ :=
      updateOne_match e.id e.version (e.SetVersion (e.version + 1)) store h
    obtain ⟨hc2, hm2⟩ := updateOne_match e.id e.version e store h
    simp [databaseUpdate, mongoEarlyUpdate, hc1, hm1, hc2, hm2]

/-- C1, witness: the amended theorem applied to a one-document
collection holding key 1 at version 3 and an entity submitting key 1,
version 3: the `database` variant succeeds and the collection contains
the document at version 4, the early `mongo` variant succeeds and the
collection contains the document still at version 3; and applied to
the empty collection, both fail with their respective errors leaving
the collection empty. -/
theorem C1_witness :
    ((databaseUpdate [(⟨1, 3, "old"⟩ : Entity Int)] ⟨1, 3, "new"⟩).2 = .ok () ∧
      Entity.SetVersion (⟨1, 3, "new"⟩ : Entity Int) (3 + 1) ∈
        (databaseUpdate [(⟨1, 3, "old"⟩ : Entity Int)] ⟨1, 3, "new"⟩).1 ∧
      (mongoEarlyUpdate [(⟨1, 3, "old"⟩ : Entity Int)] ⟨1, 3, "new"⟩).2 = .ok () ∧
      (⟨1, 3, "new"⟩ : Entity Int) ∈
        (mongoEarlyUpdate [(⟨1, 3, "old"⟩ : Entity Int)] ⟨1, 3, "new"⟩).1) ∧
    (databaseUpdate ([] : List (Entity Int)) ⟨1, 3, "new"⟩ =
        ([], .error .editConflict) ∧
      mongoEarlyUpdate ([] : List (Entity Int)) ⟨1, 3, "new"⟩ =
        ([], .error .recordNotFound)) := by
  constructor
  · exact (C1_update_contract [(⟨1, 3, "old"⟩ : Entity Int)] ⟨1, 3, "new"⟩).2
      ⟨⟨1, 3, "old"⟩, by decide, by decide⟩
  · exact (C1_update_contract ([] : List (Entity Int)) ⟨1, 3, "new"⟩).1
      (by simp)

/-- C8: evaluating the two `GetAll` option builders at the filter with
page 1, page size 20 and safelisted sort value `"name"`.  The
`database` variant's single `SetSort` with an ordered `bson.D`
produces the requested column followed by `_id` ascending, as the
claim states; the `mongo` variant's second `SetSort` call replaces the
first, so its effective sort specification is `_id` alone and the
user-requested primary column is dropped, contradicting the adjacent
comment that the id sort is a secondary sort. -/
theorem C8_sortSpec :
    databaseGetAllFindOptions ⟨1, 20, "name", ["name"]⟩ =
      .ok ⟨some 0, some 20, some [("name", 1), ("_id", 1)]⟩ ∧
    mongoGetAllFindOptions ⟨1, 20, "name", ["name"]⟩ =
      .ok ⟨some 0, some 20, some [("_id", 1)]⟩ := by
  decide

/-- C3: for every request whose bearer token passes the signature
check (`rsaCheck` succeeds), the validity-window check, the issuer
check and the audience check, the Authentication stage terminates with
`ServerError` when the subject claim does not parse as an `int64`
caller key; with `InvalidToken` when the parsed subject's identity
lookup returns `NotFound`; and with `ServerError` on any other
repository error. -/
theorem C3_authenticate (rsaCheck : String → Option JwtClaims) (authority : String)
    (repo : Int → Except RepoError User) (h token : String) (claims : JwtClaims)
    (hne : h ≠ "") (hsplit : goSplit h ' ' = ["Bearer", token])
    (hsig : rsaCheck token = some claims) (hvalid : claims.valid = true)
    (hiss : claims.issuer = authority) (haud : claims.audienceOk = true) :
    (parseInt64 claims.subject = none →
      (Authenticate rsaCheck authority repo h).2 = .serverError) ∧
    (∀ uid, parseInt64 claims.subject = some uid →
      (repo uid = .error .recordNotFound →
        (Authenticate rsaCheck authority repo h).2 = .invalidToken) ∧
      (∀ e, e ≠ RepoError.recordNotFound → repo uid = .error e →
        (Authenticate rsaCheck authority repo h).2 = .serverError)) := by
  refine ⟨fun hparse => ?_, fun uid huid => ⟨fun herr => ?_, fun e hnf herr => ?_⟩⟩
  · simp [Authenticate, hne, hsplit, hsig, hvalid, hiss, haud, hparse]
  · simp [Authenticate, hne, hsplit, hsig, hvalid, hiss, haud, huid, herr]
  · cases e with
    | recordNotFound => exact absurd rfl hnf
    | editConflict =>
      simp [Authenticate, hne, hsplit, hsig, hvalid, hiss, haud, huid, herr]
    | other msg =>
      simp [Authenticate, hne, hsplit, hsig, hvalid, hiss, haud, huid, herr]

/-- C3, witness: with a token accepted by every check, the subject
`"abc"` fails the `int64` parse and yields `ServerError`; the subject
`"7"` parses, and yields `InvalidToken` when the lookup of user 7
returns `NotFound` but `ServerError` when it returns any other
repository error. -/
theorem C3_witness :
    (Authenticate (fun _ => some ⟨true, "iss", true, "abc"⟩) "iss"
      (fun _ => .error .recordNotFound) "Bearer tok").2 = .serverError ∧
    (Authenticate (fun _ => some ⟨true, "iss", true, "7"⟩) "iss"
      (fun _ => .error .recordNotFound) "Bearer tok").2 = .invalidToken ∧
    (Authenticate (fun _ => some ⟨true, "iss", true, "7"⟩) "iss"
      (fun _ => .error (.other "db down")) "Bearer tok").2 = .serverError := by
  refine ⟨?_, ?_, ?_⟩
  · exact (C3_authenticate (fun _ => some ⟨true, "iss", true, "abc"⟩) "iss"
      (fun _ => .error .recordNotFound) "Bearer tok" "tok" ⟨true, "iss", true, "abc"⟩
      (by decide) (by decide) rfl rfl rfl rfl).1 (by decide)
  · exact ((C3_authenticate (fun _ => some ⟨true, "iss", true, "7"⟩) "iss"
      (fun _ => .error .recordNotFound) "Bearer tok" "tok" ⟨true, "iss", true, "7"⟩
      (by decide) (by decide) rfl rfl rfl rfl).2 7 (by decide)).1 rfl
  · exact ((C3_authenticate (fun _ => some ⟨true, "iss", true, "7"⟩) "iss"
      (fun _ => .error (.other "db down")) "Bearer tok" "tok" ⟨true, "iss", true, "7"⟩
      (by decide) (by decide) rfl rfl rfl rfl).2 7 (by decide)).2
      (.other "db down") (by simp) rfl

/-- C4: for every authenticated request whose identity re-fetch by the
context user's key succeeds, the Authorization stage's outcome is
`Forbidden` exactly when the required capability code is absent from
the refreshed permission set, and the pipeline continues to the next
handler exactly when the code is present. -/
theorem C4_requirePermission (repo : Int → Except RepoError User) (code : String)
    (ctxUser user : User) (h : repo ctxUser.ID = .ok user) :
    (RequirePermission repo code ctxUser = .forbidden ↔
      Include code user.Permissions = false) ∧
    (RequirePermission repo code ctxUser = .nextHandler user ↔
      Include code user.Permissions = true) := by
  cases hI : Include code user.Permissions <;>
    simp [RequirePermission, h, hI]

/-- C4, witness: a caller with capability set `{"read"}` is refused
with `Forbidden` on a route requiring `"write"` and passed to the
business handler on a route requiring `"read"`. -/
theorem C4_witness :
    RequirePermission (fun _ => .ok ⟨1, ["read"], true, 1⟩) "write"
      ⟨1, ["read"], true, 1⟩ = .forbidden ∧
    RequirePermission (fun _ => .ok ⟨1, ["read"], true, 1⟩) "read"
      ⟨1, ["read"], true, 1⟩ = .nextHandler ⟨1, ["read"], true, 1⟩ := by
  constructor
  · exact (C4_requirePermission (fun _ => .ok ⟨1, ["read"], true, 1⟩) "write"
      ⟨1, ["read"], true, 1⟩ ⟨1, ["read"], true, 1⟩ rfl).1.mpr (by decide)
  · exact (C4_requirePermission (fun _ => .ok ⟨1, ["read"], true, 1⟩) "read"
      ⟨1, ["read"], true, 1⟩ ⟨1, ["read"], true, 1⟩ rfl).2.mpr (by decide)

/-- Helper: every branch of the Authentication stage either produces
the `InvalidToken` outcome with the `Vary` header followed by the
Bearer challenge marker, or a different outcome with the `Vary` header
alone. -/
theorem authenticate_cases (rsaCheck : String → Option JwtClaims)
    (authority : String) (repo : Int → Except RepoError User) (h : String) :
    Authenticate rsaCheck authority repo h =
      ([("Vary", "Authorization"), ("WWW-Authenticate", "Bearer")],
        .invalidToken) ∨
    ((Authenticate rsaCheck authority repo h).1 = [("Vary", "Authorization")] ∧
      (Authenticate rsaCheck authority repo h).2 ≠ .invalidToken) := by
  unfold Authenticate
  dsimp only
  repeat' split
  all_goals simp [invalidAuthenticationTokenHeaders]

/-- C9: every response passing through the Authentication stage
carries the `Vary: Authorization` header, and every `InvalidToken`
outcome additionally carries the `WWW-Authenticate: Bearer` challenge
marker. -/
theorem C9_headers (rsaCheck : String → Option JwtClaims) (authority : String)
    (repo : Int → Except RepoError User) (h : String) :
    ("Vary", "Authorization") ∈ (Authenticate rsaCheck authority repo h).1 ∧
    ((Authenticate rsaCheck authority repo h).2 = .invalidToken →
      ("WWW-Authenticate", "Bearer") ∈ (Authenticate rsaCheck authority repo h).1) := by
  rcases authenticate_cases rsaCheck authority repo h with heq | ⟨h1, h2⟩
  · rw [heq]
    simp
  · rw [h1]
    exact ⟨by simp, fun hout => absurd hout h2⟩

/-- C9, witness: a request with no `Authorization` header terminates
with `InvalidToken` and its response carries both the `Vary:
Authorization` header and the Bearer challenge marker. -/
theorem C9_witness :
    ("Vary", "Authorization") ∈
      (Authenticate (fun _ => none) "iss" (fun _ => .error .recordNotFound) "").1 ∧
    ("WWW-Authenticate", "Bearer") ∈
      (Authenticate (fun _ => none) "iss" (fun _ => .error .recordNotFound) "").1 :=
  ⟨(C9_headers (fun _ => none) "iss" (fun _ => .error .recordNotFound) "").1,
    (C9_headers (fun _ => none) "iss" (fun _ => .error .recordNotFound) "").2
      (by decide)⟩

/-- C10: in the Authorization stage, every error from the identity
re-fetch — the not-found result included — produces `ServerError`,
never `InvalidToken` or `Forbidden`. -/
theorem C10_requirePermission_error (repo : Int → Except RepoError User)
    (code : String) (ctxUser : User) (e : RepoError)
    (h : repo ctxUser.ID = .error e) :
    RequirePermission repo code ctxUser = .serverError := by
  simp [RequirePermission, h]

/-- C10, witness: a caller whose account was deleted between
authentication and authorization — the re-fetch returns `NotFound` —
receives `ServerError`. -/
theorem C10_witness :
    RequirePermission (fun _ => .error .recordNotFound) "read"
      ⟨7, ["read"], true, 1⟩ = .serverError :=
  C10_requirePermission_error (fun _ => .error .recordNotFound) "read"
    ⟨7, ["read"], true, 1⟩ .recordNotFound rfl

/-- C5: for every function handed to `Background` — `fnPanic` being
its panic outcome — the caller's own trace is exactly the WaitGroup
increment, performed before the goroutine (whose trace starts with the
function run) is launched, and the caller returns normally; inside the
goroutine the counter is decremented exactly once and never
incremented again; no panic propagates out of the goroutine — in
particular none reaches the caller that invoked `Background` — and a
panic is logged exactly when the function panicked. -/
theorem C5_background (fnPanic : Option String) :
    (Background fnPanic).1 = [.wgAdd] ∧
    (Background fnPanic).2.2.head? = some .runFn ∧
    (Background fnPanic).2.2.count .wgDone = 1 ∧
    (Background fnPanic).2.2.count .wgAdd = 0 ∧
    (Background fnPanic).2.1 = none ∧
    (BgEvent.logPanic ∈ (Background fnPanic).2.2 ↔ fnPanic ≠ none) := by
  cases fnPanic <;>
    simp [Background, backgroundGoroutine, runDefers, recoverAndLog, wgDoneAction,
      List.count_cons] <;>
    decide

/-- C5, witness: a function that panics with `"boom"`: the caller's
trace is the single increment, the goroutine decrements exactly once,
no panic escapes, and the panic is logged. -/
theorem C5_witness :
    (Background (some "boom")).1 = [.wgAdd] ∧
    (Background (some "boom")).2.2.count .wgDone = 1 ∧
    (Background (some "boom")).2.1 = none ∧
    BgEvent.logPanic ∈ (Background (some "boom")).2.2 :=
  ⟨(C5_background (some "boom")).1,
    (C5_background (some "boom")).2.2.1,
    (C5_background (some "boom")).2.2.2.2.1,
    (C5_background (some "boom")).2.2.2.2.2.mpr (by simp)⟩

/-- C2, counterexample: in the `part_004` variant of `Serve`, when the
bounded grace period elapses — `server.Shutdown` returns the error
`"shutdown deadline exceeded"` — that error is indeed surfaced as
`Serve`'s return value, but the events guaranteed to have happened
before `Serve` returns do not include the tracker wait: the error send
is the goroutine's first channel send and precedes its
`WaitGroup.Wait()`.  In the `part_005` variant the goroutine never
waits on the tracker at all.  The claim that the tracker wait is
performed before `Serve` returns even in the timeout case is
therefore false. -/
theorem C2_counterexample :
    (serveReturn (serveGoroutine004 (some "shutdown deadline exceeded"))).1 =
      some "shutdown deadline exceeded" ∧
    ServeEvent.waitTracker ∉
      (serveReturn (serveGoroutine004 (some "shutdown deadline exceeded"))).2 ∧
    ServeEvent.waitTracker ∉ serveGoroutine005 (some "shutdown deadline exceeded") := by
  decide

/-- C2, amended: in the `part_004` variant of `Serve`, the shutdown
outcome of the grace period is always surfaced as `Serve`'s return
value, and the background-task tracker wait is guaranteed to have
happened before `Serve` returns exactly when the in-flight-request
shutdown completed within the grace period; when the grace period
elapses, `Serve` returns the shutdown error without the tracker wait
ordered before its return.  The `part_005` variant never waits on the
tracker during shutdown at all. -/
theorem C2_serve_wait (r : Option String) :
    (serveReturn (serveGoroutine004 r)).1 = r ∧
    (ServeEvent.waitTracker ∈ (serveReturn (serveGoroutine004 r)).2 ↔ r = none) ∧
    ServeEvent.waitTracker ∉ serveGoroutine005 r := by
  cases r <;> simp [serveGoroutine004, serveGoroutine005, serveReturn, firstSend]

/-- C2, witness: when the graceful shutdown finishes within the grace
period, `Serve` returns nil and the tracker wait did happen before the
return; even then `part_005` performs no tracker wait. -/
theorem C2_witness :
    (serveReturn (serveGoroutine004 none)).1 = none ∧
    ServeEvent.waitTracker ∈ (serveReturn (serveGoroutine004 none)).2 ∧
    ServeEvent.waitTracker ∉ serveGoroutine005 none :=
  ⟨(C2_serve_wait none).1, (C2_serve_wait none).2.1.mpr rfl,
    (C2_serve_wait none).2.2⟩

end PlayCommon
